import Mathlib

/-!
Verification development for the voice-analysis app (`app.py`).

The program is a single linear request handler: upload → temp file →
decode (librosa, fixed 22050 Hz) → re-encode to WAV → Praat queries with a
NaN→0 guard (`get_praat_val`) and a try/except around jitter/shimmer →
STFT low/high band energy ratio → render → unconditional temp-file
cleanup.  Floating-point values returned by the phonetics toolkit are
idealised as `Fl` (NaN or an exact rational); fallible library calls are
`Except Unit Fl`; the filesystem is a `Finset String` of existing paths.
-/

set_option maxHeartbeats 1000000

namespace Voc

/-- A floating-point value returned by the phonetics toolkit: either NaN
(Praat's "undefined") or a finite numeric value, idealised as a rational. -/
inductive Fl where
  | nan : Fl
  | num : ℚ → Fl
  deriving DecidableEq

/-- `np.isnan` on a toolkit value. -/
def np_isnan : Fl → Bool
  | Fl.nan => true
  | Fl.num _ => false

/-- `app.py` line 48-50: `def get_praat_val(call_obj): val = parselmouth.praat.call(...);
return 0 if np.isnan(val) else val`.  The call result is the argument. -/
def get_praat_val (val : Fl) : Fl :=
  if np_isnan val then Fl.num 0 else val

/-- The external phonetics toolkit (parselmouth/Praat), consumed as an
opaque oracle: each queried statistic is a function of the positional
parameters given at the call site.  Scalar queries return a float
(possibly NaN); the jitter/shimmer commands may also raise. -/
structure Toolkit where
  pitchGetMean : ℚ → ℚ → String → Fl
  formantGetMean : ℕ → ℚ → ℚ → String → Fl
  harmonicityGetMean : ℚ → ℚ → Fl
  jitterLocal : ℚ → ℚ → ℚ → ℚ → ℚ → Except Unit Fl
  shimmerLocal : ℚ → ℚ → ℚ → ℚ → ℚ → ℚ → Except Unit Fl

/-- `app.py` lines 61-65: the try/except around the two stability calls.
If either library call raises, both displayed values are set to 0
(`jitter, shimmer = 0, 0`); the second call is only reached when the
first returned. -/
def jitterShimmer (jc sc : Except Unit Fl) : Fl × Fl :=
  match jc, sc with
  | Except.error _, _ => (Fl.num 0, Fl.num 0)
  | _, Except.error _ => (Fl.num 0, Fl.num 0)
  | Except.ok j, Except.ok s => (j, s)

/-- The seven scalars obtained from the phonetics toolkit
(`m_pitch`, `f1`, `f2`, `f3`, `jitter`, `shimmer`, `hnr`). -/
structure AnalysisScalars where
  m_pitch : Fl
  f1 : Fl
  f2 : Fl
  f3 : Fl
  jitter : Fl
  shimmer : Fl
  hnr : Fl
  deriving DecidableEq

/-- `app.py` lines 52-68, section [B]: the eight-indicator extraction
(toolkit part), with the exact positional arguments of each call site. -/
def analysisScalars (tk : Toolkit) : AnalysisScalars :=
  let m_pitch := get_praat_val (tk.pitchGetMean 0 0 "Hertz")
  let f1 := get_praat_val (tk.formantGetMean 1 0 0 "Hertz")
  let f2 := get_praat_val (tk.formantGetMean 2 0 0 "Hertz")
  let f3 := get_praat_val (tk.formantGetMean 3 0 0 "Hertz")
  let js := jitterShimmer (tk.jitterLocal 0 0 0.0001 0.02 1.3)
    (tk.shimmerLocal 0 0 0.0001 0.02 1.3 1.6)
  let hnr := get_praat_val (tk.harmonicityGetMean 0 0)
  ⟨m_pitch, f1, f2, f3, js.1, js.2, hnr⟩

/-- A toolkit value is finite when it is not NaN. -/
def flFinite (v : Fl) : Prop := v ≠ Fl.nan

/-- A fallible toolkit call either raises or returns a finite value. -/
def finiteOrRaises (r : Except Unit Fl) : Prop :=
  ∀ v, r = Except.ok v → v ≠ Fl.nan

/-- A concrete toolkit: pitch query undefined (NaN), formants 7, HNR 3,
jitter call raising, shimmer call returning 2. -/
def tkA : Toolkit where
  pitchGetMean := fun _ _ _ => Fl.nan
  formantGetMean := fun _ _ _ _ => Fl.num 7
  harmonicityGetMean := fun _ _ => Fl.num 3
  jitterLocal := fun _ _ _ _ _ => Except.error ()
  shimmerLocal := fun _ _ _ _ _ _ => Except.ok (Fl.num 2)

/-- `tkA` with a different pitch oracle but identical stability calls. -/
def tkB : Toolkit := { tkA with pitchGetMean := fun _ _ _ => Fl.num 5 }

/-- A concrete toolkit whose jitter command returns NaN (Praat's
"undefined", e.g. on a point process with fewer than two periods)
instead of raising. -/
def tkNanJitter : Toolkit where
  pitchGetMean := fun _ _ _ => Fl.num 120
  formantGetMean := fun _ _ _ _ => Fl.num 500
  harmonicityGetMean := fun _ _ => Fl.num 10
  jitterLocal := fun _ _ _ _ _ => Except.ok Fl.nan
  shimmerLocal := fun _ _ _ _ _ _ => Except.ok (Fl.num (1 / 100))

/-- `app.py` line 30: `audio_only_path = tmp_file_path + "_converted.wav"`. -/
def audio_only_path (tmp : String) : String := tmp ++ "_converted.wav"

/-- One iteration of the cleanup loop, `app.py` lines 127-129:
`if p and os.path.exists(p): os.remove(p)`, on a filesystem modelled as
the finite set of existing paths. -/
def removeStep (fs : Finset String) (p : String) : Finset String :=
  if p ≠ "" ∧ p ∈ fs then fs.erase p else fs

/-- `app.py` lines 125-129: the `finally` block,
`for p in [tmp_file_path, audio_only_path]: if p and os.path.exists(p): os.remove(p)`. -/
def cleanupFiles (fs : Finset String) (tmp : String) : Finset String :=
  [tmp, audio_only_path tmp].foldl removeStep fs

/-- Filesystem effect of the `try` body (`app.py` lines 32-119): the only
file it creates is the converted WAV (`sf.write`, line 38); `wrote` says
whether execution reached that write before any exception. -/
def tryBlockFiles (fs : Finset String) (tmp : String) (wrote : Bool) : Finset String :=
  if wrote then insert (audio_only_path tmp) fs else fs

/-- Filesystem effect of one whole request (`app.py` lines 25-129): the
uploaded bytes are written to `tmp` (lines 25-27), the `try` body runs
(possibly raising at any point), and the `finally` block always runs. -/
def handleRequest (fs : Finset String) (tmp : String) (wrote : Bool) : Finset String :=
  cleanupFiles (tryBlockFiles (insert tmp fs) tmp wrote) tmp

/-- What the page renders, abstracted to its kind: the numeric metrics
column, the plots, the success banner, the error banner (with the
interpolated exception text), or the generic hint. -/
inductive UIEvent where
  | metricsShown : AnalysisScalars → ℝ → UIEvent
  | plotShown : UIEvent
  | successMsg : UIEvent
  | errorShown : String → UIEvent
  | infoHint : UIEvent

/-- Constructor tag of a UI event. -/
def msgKind : UIEvent → ℕ
  | UIEvent.metricsShown _ _ => 0
  | UIEvent.plotShown => 1
  | UIEvent.successMsg => 2
  | UIEvent.errorShown _ => 3
  | UIEvent.infoHint => 4

/-- Whether a UI event is the error banner. -/
def isErrorEv : UIEvent → Bool
  | UIEvent.errorShown _ => true
  | _ => false

/-- Whether a UI event is the generic hint. -/
def isHintEv : UIEvent → Bool
  | UIEvent.infoHint => true
  | _ => false

/-- `app.py` lines 32-123: the `try`/`except Exception` around the whole
pipeline.  On success the metrics, plots and success banner are shown
(lines 77-119); on any exception `st.error(...)` with the interpolated
message plus `st.info(...)` with the one generic hint (lines 121-123);
nothing is re-raised. -/
def render (outcome : Except String (AnalysisScalars × ℝ)) : List UIEvent :=
  match outcome with
  | Except.ok (s, r) => [UIEvent.metricsShown s r, UIEvent.plotShown, UIEvent.successMsg]
  | Except.error e => [UIEvent.errorShown e, UIEvent.infoHint]

/-- An upload candidate: a file name together with the lowercased
extension of that name (without the dot), as the upload control and
`os.path.splitext(...)[1].lower()` both read it. -/
structure Upload where
  name : String
  ext : String
  deriving DecidableEq

/-- `app.py` line 18: the accepted types of the upload control. -/
def allowed_types : List String := ["wav", "mp4", "m4a"]

/-- Modelled from the spec: the hosting framework's upload control
("upload control restricts to wav/mp4/m4a") — a candidate file whose
extension is not in the accepted list is rejected and the script
receives `None`; the framework itself is not part of this repository. -/
def file_uploader (types : List String) (candidate : Option Upload) : Option Upload :=
  match candidate with
  | none => none
  | some u => if u.ext ∈ types then some u else none

/-- `app.py` lines 20-27: the temp file is created (with the upload's
extension as suffix) only inside `if uploaded_file is not None:`;
returns the path of the created temp file, if any. -/
def writtenTempFile (candidate : Option Upload) : Option String :=
  match file_uploader allowed_types candidate with
  | none => none
  | some u => some ("tmp" ++ u.ext)

/-- Events of the decode-and-analyze section, `app.py` lines 35-41. -/
inductive Ev where
  | loadAudio : String → List ℚ → ℕ → Bool → Ev
  | writeWav : String → List ℚ → ℕ → Ev
  | praatOpen : String → Ev
  deriving DecidableEq

/-- `a` occurs strictly before `b` in the trace `tr`. -/
def precedes (a b : Ev) (tr : List Ev) : Prop :=
  ∃ i j : ℕ, i < j ∧ tr.get? i = some a ∧ tr.get? j = some b

/-- `app.py` lines 35-41 as an event trace: `y, sr = librosa.load(tmp_file_path,
sr=22050)` (mono by the decoder's default, returning the requested rate —
the decoder itself is an external library), then `sf.write(audio_only_path,
y, sr)`, then `parselmouth.Sound(audio_only_path)`; `y` is the decoded
buffer the decoder returned. -/
def analysisTrace (tmp : String) (y : List ℚ) : List Ev :=
  [Ev.loadAudio tmp y 22050 true,
   Ev.writeWav (audio_only_path tmp) y 22050,
   Ev.praatOpen (audio_only_path tmp)]

/-- Modelled from the spec: the Hann analysis window of the external
FFT/spectrogram utility (an opaque service, not part of this repository). -/
noncomputable def hannWindow (nfft n : ℕ) : ℝ :=
  (1 - Real.cos (2 * Real.pi * n / nfft)) / 2

/-- Modelled from the spec: one windowed analysis frame of the sample
buffer, frame `m` at hop `hop`, zero-padded past the end of the buffer. -/
noncomputable def windowedFrame (y : List ℚ) (nfft hop m : ℕ) : List ℝ :=
  (List.range nfft).map (fun n => hannWindow nfft n * ((y.getD (m * hop + n) 0 : ℚ) : ℝ))

/-- Modelled from the spec: the discrete Fourier transform of a frame at
bin `k`. -/
noncomputable def dft_bin (xs : List ℝ) (k : ℕ) : ℂ :=
  ∑ n in Finset.range xs.length,
    ((xs.getD n 0 : ℝ) : ℂ) *
      Complex.exp (-(2 * Real.pi * Complex.I * k * n) / (xs.length : ℂ))

/-- Modelled from the spec: "compute the magnitude short-time Fourier
transform of the sample buffer" (the external `librosa.stft` followed by
`np.abs`, line 71) — one row of magnitudes per frequency bin
`k = 0 .. nfft/2`, one column per frame. -/
noncomputable def stft_mag (y : List ℚ) (nfft hop : ℕ) : List (List ℝ) :=
  (List.range (nfft / 2 + 1)).map (fun k =>
    (List.range (y.length / hop + 1)).map (fun m =>
      Complex.abs (dft_bin (windowedFrame y nfft hop m) k)))

/-- Modelled from the spec: the centre frequency of each FFT bin
(`librosa.fft_frequencies`, line 72): `k * sr / nfft` for `k = 0 .. nfft/2`. -/
def fft_frequencies (sr nfft : ℕ) : List ℚ :=
  (List.range (nfft / 2 + 1)).map (fun k => ((k : ℚ) * (sr : ℚ)) / (nfft : ℚ))

/-- `app.py` line 73: `low_band = np.sum(S[freqs <= 1000])` — the sum of
all magnitudes in rows whose bin frequency is at most 1000 Hz. -/
noncomputable def low_band (freqs : List ℚ) (S : List (List ℝ)) : ℝ :=
  (((freqs.zip S).filter (fun p => decide (p.1 ≤ 1000))).map (fun p => p.2.sum)).sum

/-- `app.py` line 74: `high_band = np.sum(S[freqs > 1000])`. -/
noncomputable def high_band (freqs : List ℚ) (S : List (List ℝ)) : ℝ :=
  (((freqs.zip S).filter (fun p => decide (1000 < p.1))).map (fun p => p.2.sum)).sum

/-- The sum of all magnitudes (`np.sum(S)`), for the partition property. -/
noncomputable def total_band (freqs : List ℚ) (S : List (List ℝ)) : ℝ :=
  ((freqs.zip S).map (fun p => p.2.sum)).sum

open Classical in
/-- `app.py` lines 71-75: `lh_ratio = low_band / high_band if high_band > 0
else 0`, over the magnitude STFT of the decoded buffer (`librosa.stft`
defaults: `n_fft = 2048`, hop 512) and the bin frequencies at the fixed
rate 22050. -/
noncomputable def lh_ratio (y : List ℚ) : ℝ :=
  if 0 < high_band (fft_frequencies 22050 2048) (stft_mag y 2048 512) then
    low_band (fft_frequencies 22050 2048) (stft_mag y 2048 512) /
      high_band (fft_frequencies 22050 2048) (stft_mag y 2048 512)
  else 0

theorem get_praat_val_nan : get_praat_val Fl.nan = Fl.num 0 := rfl

theorem get_praat_val_num (q : ℚ) : get_praat_val (Fl.num q) = Fl.num q := rfl

theorem get_praat_val_ne_nan (v : Fl) : get_praat_val v ≠ Fl.nan := by
  cases v <;> simp [get_praat_val, np_isnan]

/-- Claim C1: for each scalar statistic routed through `get_praat_val`
(mean pitch, F1, F2, F3, HNR), a NaN result of the toolkit query is
displayed as 0, and a numeric result is displayed unchanged. -/
theorem safe_extraction_nan_to_zero (tk : Toolkit) :
    ((tk.pitchGetMean 0 0 "Hertz" = Fl.nan → (analysisScalars tk).m_pitch = Fl.num 0) ∧
      ∀ q : ℚ, tk.pitchGetMean 0 0 "Hertz" = Fl.num q →
        (analysisScalars tk).m_pitch = Fl.num q) ∧
    ((tk.formantGetMean 1 0 0 "Hertz" = Fl.nan → (analysisScalars tk).f1 = Fl.num 0) ∧
      ∀ q : ℚ, tk.formantGetMean 1 0 0 "Hertz" = Fl.num q →
        (analysisScalars tk).f1 = Fl.num q) ∧
    ((tk.formantGetMean 2 0 0 "Hertz" = Fl.nan → (analysisScalars tk).f2 = Fl.num 0) ∧
      ∀ q : ℚ, tk.formantGetMean 2 0 0 "Hertz" = Fl.num q →
        (analysisScalars tk).f2 = Fl.num q) ∧
    ((tk.formantGetMean 3 0 0 "Hertz" = Fl.nan → (analysisScalars tk).f3 = Fl.num 0) ∧
      ∀ q : ℚ, tk.formantGetMean 3 0 0 "Hertz" = Fl.num q →
        (analysisScalars tk).f3 = Fl.num q) ∧
    ((tk.harmonicityGetMean 0 0 = Fl.nan → (analysisScalars tk).hnr = Fl.num 0) ∧
      ∀ q : ℚ, tk.harmonicityGetMean 0 0 = Fl.num q →
        (analysisScalars tk).hnr = Fl.num q) := by
  refine ⟨⟨fun h => ?_, fun q h => ?_⟩, ⟨fun h => ?_, fun q h => ?_⟩,
    ⟨fun h => ?_, fun q h => ?_⟩, ⟨fun h => ?_, fun q h => ?_⟩,
    ⟨fun h => ?_, fun q h => ?_⟩⟩ <;>
  simp [analysisScalars, h, get_praat_val, np_isnan]

/-- Witness for C1 at the concrete toolkit `tkA` (pitch NaN, formants 7,
HNR 3). -/
theorem safe_extraction_nan_to_zero_witness :
    (analysisScalars tkA).m_pitch = Fl.num 0 ∧ (analysisScalars tkA).f1 = Fl.num 7 ∧
    (analysisScalars tkA).f2 = Fl.num 7 ∧ (analysisScalars tkA).f3 = Fl.num 7 ∧
    (analysisScalars tkA).hnr = Fl.num 3 :=
  ⟨(safe_extraction_nan_to_zero tkA).1.1 rfl,
   (safe_extraction_nan_to_zero tkA).2.1.2 7 rfl,
   (safe_extraction_nan_to_zero tkA).2.2.1.2 7 rfl,
   (safe_extraction_nan_to_zero tkA).2.2.2.1.2 7 rfl,
   (safe_extraction_nan_to_zero tkA).2.2.2.2.2 3 rfl⟩

/-- Claim C2: if either stability library call raises, both displayed
stability values are 0. -/
theorem stability_exception_to_zero (tk : Toolkit)
    (h : tk.jitterLocal 0 0 0.0001 0.02 1.3 = Except.error () ∨
      tk.shimmerLocal 0 0 0.0001 0.02 1.3 1.6 = Except.error ()) :
    (analysisScalars tk).jitter = Fl.num 0 ∧ (analysisScalars tk).shimmer = Fl.num 0 := by
  rcases h with h | h
  · simp [analysisScalars, h, jitterShimmer]
  · cases hj : tk.jitterLocal 0 0 0.0001 0.02 1.3 <;>
      simp [analysisScalars, h, hj, jitterShimmer]

/-- Witness for C2 at `tkA`, whose jitter call raises. -/
theorem stability_exception_to_zero_witness :
    (analysisScalars tkA).jitter = Fl.num 0 ∧ (analysisScalars tkA).shimmer = Fl.num 0 :=
  stability_exception_to_zero tkA (Or.inl rfl)

/-- Claim C7: the stability computations are invoked with the fixed
bounds 0.0001 s, 0.02 s, factor 1.3 (and 1.6 for shimmer): the displayed
jitter/shimmer equal the guarded results of the calls at exactly those
arguments, so two toolkits agreeing at those arguments yield the same
displayed values. -/
theorem stability_fixed_args (tk₁ tk₂ : Toolkit)
    (hj : tk₁.jitterLocal 0 0 0.0001 0.02 1.3 = tk₂.jitterLocal 0 0 0.0001 0.02 1.3)
    (hs : tk₁.shimmerLocal 0 0 0.0001 0.02 1.3 1.6 =
      tk₂.shimmerLocal 0 0 0.0001 0.02 1.3 1.6) :
    ((analysisScalars tk₁).jitter = (analysisScalars tk₂).jitter ∧
      (analysisScalars tk₁).shimmer = (analysisScalars tk₂).shimmer) ∧
    (analysisScalars tk₁).jitter =
      (jitterShimmer (tk₁.jitterLocal 0 0 0.0001 0.02 1.3)
        (tk₁.shimmerLocal 0 0 0.0001 0.02 1.3 1.6)).1 ∧
    (analysisScalars tk₁).shimmer =
      (jitterShimmer (tk₁.jitterLocal 0 0 0.0001 0.02 1.3)
        (tk₁.shimmerLocal 0 0 0.0001 0.02 1.3 1.6)).2 := by
  refine ⟨⟨?_, ?_⟩, rfl, rfl⟩ <;> simp [analysisScalars, hj, hs]

/-- Witness for C7 at `tkA` and `tkB`, which differ in their pitch
oracle but agree on the stability calls. -/
theorem stability_fixed_args_witness :
    ((analysisScalars tkA).jitter = (analysisScalars tkB).jitter ∧
      (analysisScalars tkA).shimmer = (analysisScalars tkB).shimmer) ∧
    (analysisScalars tkA).jitter =
      (jitterShimmer (tkA.jitterLocal 0 0 0.0001 0.02 1.3)
        (tkA.shimmerLocal 0 0 0.0001 0.02 1.3 1.6)).1 ∧
    (analysisScalars tkA).shimmer =
      (jitterShimmer (tkA.jitterLocal 0 0 0.0001 0.02 1.3)
        (tkA.shimmerLocal 0 0 0.0001 0.02 1.3 1.6)).2 :=
  stability_fixed_args tkA tkB rfl rfl

/-- Claim C5, counterexample: when the jitter library call returns NaN
(Praat's "undefined") instead of raising, the displayed jitter is NaN —
the try/except does not coerce it, so not every displayed scalar is
finite. -/
theorem scalars_finite_cex : ¬ flFinite ((analysisScalars tkNanJitter).jitter) :=
  fun h => h rfl

/-- Claim C5 (amended): every scalar routed through `get_praat_val`
(mean pitch, F1, F2, F3, HNR) is finite; jitter and shimmer are finite
provided each stability call either raises or returns a finite value. -/
theorem scalars_finite_amended (tk : Toolkit)
    (hj : finiteOrRaises (tk.jitterLocal 0 0 0.0001 0.02 1.3))
    (hs : finiteOrRaises (tk.shimmerLocal 0 0 0.0001 0.02 1.3 1.6)) :
    flFinite ((analysisScalars tk).m_pitch) ∧ flFinite ((analysisScalars tk).f1) ∧
    flFinite ((analysisScalars tk).f2) ∧ flFinite ((analysisScalars tk).f3) ∧
    flFinite ((analysisScalars tk).hnr) ∧
    flFinite ((analysisScalars tk).jitter) ∧ flFinite ((analysisScalars tk).shimmer) := by
  have hfin : flFinite ((analysisScalars tk).jitter) ∧
      flFinite ((analysisScalars tk).shimmer) := by
    cases hjc : tk.jitterLocal 0 0 0.0001 0.02 1.3 with
    | error e => constructor <;> simp [flFinite, analysisScalars, hjc, jitterShimmer]
    | ok j =>
      cases hsc : tk.shimmerLocal 0 0 0.0001 0.02 1.3 1.6 with
      | error e =>
        constructor <;> simp [flFinite, analysisScalars, hjc, hsc, jitterShimmer]
      | ok s =>
        constructor
        · simpa [flFinite, analysisScalars, hjc, hsc, jitterShimmer] using hj j hjc
        · simpa [flFinite, analysisScalars, hjc, hsc, jitterShimmer] using hs s hsc
  exact ⟨get_praat_val_ne_nan _, get_praat_val_ne_nan _, get_praat_val_ne_nan _,
    get_praat_val_ne_nan _, get_praat_val_ne_nan _, hfin.1, hfin.2⟩

/-- Witness for the amended C5 at `tkA` (jitter call raises, shimmer
call returns 2). -/
theorem scalars_finite_amended_witness :
    flFinite ((analysisScalars tkA).m_pitch) ∧ flFinite ((analysisScalars tkA).jitter) ∧
    flFinite ((analysisScalars tkA).shimmer) := by
  have h := scalars_finite_amended tkA (fun v h => by cases h)
    (fun v h => by cases h; decide)
  exact ⟨h.1, h.2.2.2.2.2.1, h.2.2.2.2.2.2⟩

theorem removeStep_not_mem (fs : Finset String) (p : String) (hp : p ≠ "") :
    p ∉ removeStep fs p := by
  unfold removeStep
  by_cases h : p ∈ fs
  · simp [hp, h]
  · simp [hp, h]

theorem removeStep_subset (fs : Finset String) (p : String) : removeStep fs p ⊆ fs := by
  unfold removeStep
  split
  · exact Finset.erase_subset _ _
  · exact fun x hx => hx

theorem audio_only_path_ne_empty (tmp : String) : audio_only_path tmp ≠ "" := by
  intro h
  have hlen := congrArg String.length h
  simp [audio_only_path, String.length_append] at hlen
  exact absurd hlen.2 (by decide)

/-- Claim C4: after a request, neither the uploaded-bytes temp file nor
the converted WAV path exists, whether or not the `try` body raised and
whether or not the converted file was ever written. -/
theorem temp_files_removed (fs : Finset String) (tmp : String) (wrote : Bool)
    (htmp : tmp ≠ "") :
    tmp ∉ handleRequest fs tmp wrote ∧
      audio_only_path tmp ∉ handleRequest fs tmp wrote := by
  have hstep : handleRequest fs tmp wrote =
      removeStep (removeStep (tryBlockFiles (insert tmp fs) tmp wrote) tmp)
        (audio_only_path tmp) := rfl
  constructor
  · rw [hstep]
    intro hmem
    exact removeStep_not_mem _ tmp htmp (removeStep_subset _ _ hmem)
  · rw [hstep]
    exact removeStep_not_mem _ _ (audio_only_path_ne_empty tmp)

/-- Witness for C4 on an empty filesystem with temp path `"a"`. -/
theorem temp_files_removed_witness :
    "a" ∉ handleRequest ∅ "a" true ∧ audio_only_path "a" ∉ handleRequest ∅ "a" true :=
  temp_files_removed ∅ "a" true (by decide)

/-- Claim C6: any pipeline failure is rendered as exactly one error
banner (with the interpolated message) plus the one generic hint; the
rendered shape does not depend on the kind of error, the handler never
re-raises, and the success path shows no error banner. -/
theorem top_level_error_policy (e₁ e₂ : String) (s : AnalysisScalars) (r : ℝ) :
    render (Except.error e₁) = [UIEvent.errorShown e₁, UIEvent.infoHint] ∧
    (render (Except.error e₁)).map msgKind = (render (Except.error e₂)).map msgKind ∧
    (render (Except.error e₁)).countP isErrorEv = 1 ∧
    (render (Except.error e₁)).countP isHintEv = 1 ∧
    (render (Except.ok (s, r))).countP isErrorEv = 0 := by
  refine ⟨rfl, rfl, ?_, ?_, ?_⟩ <;>
    simp [render, isErrorEv, isHintEv, List.countP_cons, List.countP_nil]

/-- Claim C8: in the decode-and-analyze section, the decoder is invoked
at the fixed rate 22050 Hz in mono, the decoded buffer is re-encoded to
the converted WAV path at that same rate, and the phonetics analysis
object is only opened on that path after the write. -/
theorem decode_before_analysis (tmp : String) (y : List ℚ) :
    precedes (Ev.loadAudio tmp y 22050 true)
      (Ev.writeWav (audio_only_path tmp) y 22050) (analysisTrace tmp y) ∧
    precedes (Ev.writeWav (audio_only_path tmp) y 22050)
      (Ev.praatOpen (audio_only_path tmp)) (analysisTrace tmp y) :=
  ⟨⟨0, 1, by omega, rfl, rfl⟩, ⟨1, 2, by omega, rfl, rfl⟩⟩

/-- Claim C9: an upload whose extension is not wav/mp4/m4a never reaches
temp-file creation, and a temp file is only ever created for an upload
with an accepted extension. -/
theorem reject_before_temp (c : Option Upload) :
    (∀ u : Upload, c = some u → u.ext ∉ allowed_types → writtenTempFile c = none) ∧
    (∀ path : String, writtenTempFile c = some path →
      ∃ u : Upload, c = some u ∧ u.ext ∈ allowed_types) := by
  constructor
  · intro u hc hex
    subst hc
    simp [writtenTempFile, file_uploader, hex]
  · intro path hp
    cases c with
    | none => simp [writtenTempFile, file_uploader] at hp
    | some u =>
      by_cases hex : u.ext ∈ allowed_types
      · exact ⟨u, rfl, hex⟩
      · simp [writtenTempFile, file_uploader, hex] at hp

/-- Witness for C9: a `.pdf` upload creates no temp file; a `.wav`
upload that did create one has an accepted extension. -/
theorem reject_before_temp_witness :
    writtenTempFile (some ⟨"a.pdf", "pdf"⟩) = none ∧
    ∃ u : Upload, (some (⟨"b.wav", "wav"⟩ : Upload)) = some u ∧ u.ext ∈ allowed_types :=
  ⟨(reject_before_temp (some ⟨"a.pdf", "pdf"⟩)).1 ⟨"a.pdf", "pdf"⟩ rfl (by decide),
   (reject_before_temp (some ⟨"b.wav", "wav"⟩)).2 ("tmp" ++ "wav") (by decide)⟩

theorem getD_of_all_eq {α : Type} (l : List α) (d : α) (h : ∀ x ∈ l, x = d) :
    ∀ i : ℕ, l.getD i d = d := by
  induction l with
  | nil => intro i; simp
  | cons a t ih =>
    intro i
    cases i with
    | zero => simpa using h a (by simp)
    | succ n => exact ih (fun x hx => h x (by simp [hx])) n

theorem windowedFrame_zero (y : List ℚ) (hy : ∀ x ∈ y, x = 0) (nfft hop m : ℕ) :
    ∀ x ∈ windowedFrame y nfft hop m, x = 0 := by
  intro x hx
  obtain ⟨n, hn, rfl⟩ := List.mem_map.1 hx
  rw [getD_of_all_eq y 0 hy]
  simp

theorem dft_bin_zero (xs : List ℝ) (hxs : ∀ x ∈ xs, x = 0) (k : ℕ) :
    dft_bin xs k = 0 := by
  unfold dft_bin
  refine Finset.sum_eq_zero fun n hn => ?_
  rw [getD_of_all_eq xs 0 hxs]
  simp

theorem stft_mag_zero (y : List ℚ) (hy : ∀ x ∈ y, x = 0) (nfft hop : ℕ) :
    ∀ row ∈ stft_mag y nfft hop, ∀ x ∈ row, x = 0 := by
  intro row hrow x hx
  simp [stft_mag] at hrow
  obtain ⟨k, hk, rfl⟩ := hrow
  simp at hx
  obtain ⟨m, hm, rfl⟩ := hx
  rw [dft_bin_zero _ (windowedFrame_zero y hy nfft hop m)]
  simp

theorem stft_mag_nonneg (y : List ℚ) (nfft hop : ℕ) :
    ∀ row ∈ stft_mag y nfft hop, ∀ x ∈ row, 0 ≤ x := by
  intro row hrow x hx
  simp [stft_mag] at hrow
  obtain ⟨k, hk, rfl⟩ := hrow
  simp at hx
  obtain ⟨m, hm, rfl⟩ := hx
  exact Complex.abs.nonneg _

theorem high_band_nonneg (freqs : List ℚ) (S : List (List ℝ))
    (hS : ∀ row ∈ S, ∀ x ∈ row, 0 ≤ x) : 0 ≤ high_band freqs S := by
  unfold high_band
  refine List.sum_nonneg fun a ha => ?_
  obtain ⟨p, hp, rfl⟩ := List.mem_map.1 ha
  have h2 : p.2 ∈ S := (List.of_mem_zip (List.mem_of_mem_filter hp)).2
  exact List.sum_nonneg fun x hx => hS p.2 h2 x hx

theorem band_zero (freqs : List ℚ) (S : List (List ℝ))
    (hS : ∀ row ∈ S, ∀ x ∈ row, x = 0) :
    low_band freqs S = 0 ∧ high_band freqs S = 0 := by
  constructor <;>
  · refine List.sum_eq_zero fun a ha => ?_
    obtain ⟨p, hp, rfl⟩ := List.mem_map.1 ha
    have h2 : p.2 ∈ S := (List.of_mem_zip (List.mem_of_mem_filter hp)).2
    exact List.sum_eq_zero fun x hx => hS p.2 h2 x hx

theorem filter_sum_partition (l : List (ℚ × List ℝ)) :
    ((l.filter (fun p => decide (p.1 ≤ 1000))).map (fun p => p.2.sum)).sum +
      ((l.filter (fun p => decide (1000 < p.1))).map (fun p => p.2.sum)).sum =
      (l.map (fun p => p.2.sum)).sum := by
  induction l with
  | nil => simp
  | cons a t ih =>
    by_cases h : a.1 ≤ 1000
    · have h2 : ¬ (1000 : ℚ) < a.1 := not_lt.2 h
      simp [List.filter_cons, h, h2]
      linarith [ih]
    · have h2 : (1000 : ℚ) < a.1 := lt_of_not_le h
      simp [List.filter_cons, h, h2]
      linarith [ih]

/-- Claim C10: the low/high split of the bin magnitudes is a partition —
the two band sums always add up to the total magnitude sum — and a bin
lying exactly at 1000 Hz is counted in the low band and not in the high
band. -/
theorem band_partition (freqs : List ℚ) (S : List (List ℝ)) :
    low_band freqs S + high_band freqs S = total_band freqs S ∧
    (∀ r : List ℝ, low_band [1000] [r] = r.sum ∧ high_band [1000] [r] = 0) := by
  constructor
  · exact filter_sum_partition (freqs.zip S)
  · intro r
    constructor <;> simp [low_band, high_band]

/-- Claim C3: the spectral energy ratio is the low-band magnitude sum
over the high-band magnitude sum, it is 0 whenever the high-band sum is
zero, and for an all-zero sample buffer it is 0. -/
theorem lh_ratio_spec (y : List ℚ) :
    lh_ratio y =
      low_band (fft_frequencies 22050 2048) (stft_mag y 2048 512) /
        high_band (fft_frequencies 22050 2048) (stft_mag y 2048 512) ∧
    (high_band (fft_frequencies 22050 2048) (stft_mag y 2048 512) = 0 →
      lh_ratio y = 0) ∧
    ((∀ x ∈ y, x = 0) → lh_ratio y = 0) := by
  have hnn : 0 ≤ high_band (fft_frequencies 22050 2048) (stft_mag y 2048 512) :=
    high_band_nonneg _ _ (stft_mag_nonneg y 2048 512)
  refine ⟨?_, fun h0 => ?_, fun hy => ?_⟩
  · unfold lh_ratio
    split
    · rfl
    · next h =>
      have h0 : high_band (fft_frequencies 22050 2048) (stft_mag y 2048 512) = 0 :=
        le_antisymm (le_of_not_lt h) hnn
      rw [h0, div_zero]
  · simp [lh_ratio, h0]
  · simp [lh_ratio, (band_zero _ _ (stft_mag_zero y hy 2048 512)).2]

/-- Witness for C3 on concrete all-zero buffers. -/
theorem lh_ratio_spec_witness :
    lh_ratio (List.replicate 4 0) =
      low_band (fft_frequencies 22050 2048) (stft_mag (List.replicate 4 0) 2048 512) /
        high_band (fft_frequencies 22050 2048) (stft_mag (List.replicate 4 0) 2048 512) ∧
    lh_ratio (List.replicate 4 0) = 0 ∧
    lh_ratio (List.replicate 3 0) = 0 := by
  refine ⟨(lh_ratio_spec _).1, (lh_ratio_spec _).2.1 ?_, (lh_ratio_spec _).2.2 ?_⟩
  · exact (band_zero _ _
      (stft_mag_zero _ (fun x hx => List.eq_of_mem_replicate hx) 2048 512)).2
  · exact fun x hx => List.eq_of_mem_replicate hx

end Voc
